import Mathlib

/-!
# chris-tips.cpp

A shallow embedding of `chris-tips.cpp` and the properties of its functions.

Conventions of the embedding:

* `long` is the 64-bit two's-complement integer of an LP64 platform: a value is an `Int`
  in `[-2^63, 2^63)` and every arithmetic result is reduced back into that range by
  `wrapLong`. (Signed overflow is undefined in C++; whatever a run returns there is still
  a `long`, so it lies in that range.)
* `double` is IEEE-754 binary64 with round-to-nearest, ties-to-even, every operation
  rounded on its own. A NaN keeps its sign bit (the text written for it is `nan` or
  `-nan`); an operation with a NaN operand returns the first operand that is a NaN, and
  an invalid operation returns the NaN with the sign bit set, as on x86-64.
* A parameter `T&` is an in-out parameter: the function returns the object after the call.
* A stream is the list of the lines written to it; `std::endl` ends a line.
-/

namespace ChrisTips

/-! ## The type `long` -/

/-- The C++ type `long`, as its integer value. -/
abbrev long := Int

/-- Largest value of `long`. -/
def LONG_MAX : Int := 2 ^ 63 - 1

/-- Smallest value of `long`. -/
def LONG_MIN : Int := -2 ^ 63

/-- Reduction of an integer to the 64-bit two's-complement range. -/
def wrapLong (n : Int) : Int := (n + 2 ^ 63) % 2 ^ 64 - 2 ^ 63

/-- Decimal text that `std::ostream << long` writes. -/
def long.toText (n : long) : String :=
  String.mk ((if n < 0 then ['-'] else []) ++ Nat.toDigits 10 n.natAbs)

/-! ## The type `double` -/

/-- Values of the C++ type `double` (IEEE-754 binary64). A finite value is a sign and a
magnitude `k` standing for `k * 2^(-1074)`: every finite binary64 number is a whole
multiple of the smallest subnormal. Of a NaN the sign bit is kept, the payload is not. -/
inductive double where
  | fin (neg : Bool) (k : Nat)
  | inf (neg : Bool)
  | nan (neg : Bool)
  deriving DecidableEq

namespace double

/-- Number of binary digits of `n`, by halving; the first argument bounds the recursion. -/
def bitLength : Nat → Nat → Nat
  | 0, _ => 0
  | fuel + 1, n => if n = 0 then 0 else bitLength fuel (n / 2) + 1

/-- Round the exact magnitude `n / 2^sh` (in units of `2^(-1074)`) to the nearest binary64
value, ties to even: at most 53 significant bits, nothing below one unit, and overflow to
infinity from `2^2098` units (the value `2^1024`) on. -/
@[irreducible]
def round (neg : Bool) (n sh : Nat) : double :=
  let q := bitLength n n - sh - 53
  let s := sh + q
  let m := n / 2 ^ s
  let r := n % 2 ^ s
  let m' := if 2 ^ s < 2 * r ∨ (2 * r = 2 ^ s ∧ m % 2 = 1) then m + 1 else m
  let k := m' * 2 ^ q
  if 2 ^ 2098 ≤ k then inf neg else fin neg k

/-- Conversion of an integer to `double`. -/
@[irreducible]
def ofInt (i : Int) : double :=
  round (decide (i < 0)) (i.natAbs * 2 ^ 1074) 0

/-- Whether a value is a NaN. -/
def isNaN : double → Bool
  | nan _ => true
  | _ => false

/-- The operator `+` of `double`. -/
def add : double → double → double
  | nan a, _ => nan a
  | _, nan b => nan b
  | inf a, inf b => if a = b then inf a else nan true
  | inf a, fin _ _ => inf a
  | fin _ _, inf b => inf b
  | fin a j, fin b k =>
    if a = b then round a (j + k) 0
    else if k < j then round a (j - k) 0
    else if j < k then round b (k - j) 0
    else fin false 0

/-- The operator `*` of `double`. -/
def mul : double → double → double
  | nan a, _ => nan a
  | _, nan b => nan b
  | inf a, inf b => inf (xor a b)
  | inf a, fin b k => if k = 0 then nan true else inf (xor a b)
  | fin a j, inf b => if j = 0 then nan true else inf (xor a b)
  | fin a j, fin b k => round (xor a b) (j * k) 1074

instance : Add double := ⟨add⟩

instance : Mul double := ⟨mul⟩

instance (n : Nat) : OfNat double n := ⟨ofInt n⟩

/-- Number of decimal digits of `n` (none for `0`); the first argument bounds the recursion. -/
def decLength : Nat → Nat → Nat
  | 0, _ => 0
  | fuel + 1, n => if n = 0 then 0 else decLength fuel (n / 10) + 1

/-- Least `i ≥ j` with `k * 10^i ≥ 2^1074`, that is with `k * 2^(-1074) * 10^i ≥ 1`. -/
def negExp10 : Nat → Nat → Nat → Nat
  | 0, _, j => j
  | fuel + 1, k, j => if 2 ^ 1074 ≤ k * 10 ^ j then j else negExp10 fuel k (j + 1)

/-- Quotient `num / den` rounded to the nearest integer, ties to even. -/
def roundDiv (num den : Nat) : Nat :=
  let q := num / den
  let r := num % den
  if den < 2 * r ∨ (2 * r = den ∧ q % 2 = 1) then q + 1 else q

/-- Drop the zeros that end a digit string. -/
def stripZeros (ds : List Char) : List Char :=
  (ds.reverse.dropWhile (fun c => c = '0')).reverse

/-- Conversion `%g` with precision 6 of the positive magnitude `k * 2^(-1074)`: six
significant decimal digits, correctly rounded; fixed notation when the decimal exponent is
in `[-4, 6)` and scientific notation otherwise; trailing zeros removed. -/
def fmtG (k : Nat) : String :=
  let u := 2 ^ 1074
  let x0 : Int :=
    if u ≤ k then (decLength (k / u) (k / u) : Int) - 1 else -(negExp10 400 k 1 : Int)
  let d0 :=
    if 5 ≤ x0 then roundDiv k (u * 10 ^ (x0 - 5).toNat)
    else roundDiv (k * 10 ^ (5 - x0).toNat) u
  let d := if 10 ^ 6 ≤ d0 then d0 / 10 else d0
  let x := if 10 ^ 6 ≤ d0 then x0 + 1 else x0
  let ds := Nat.toDigits 10 d
  if x < -4 ∨ 6 ≤ x then
    let frac := stripZeros (ds.drop 1)
    let ex := Nat.toDigits 10 x.natAbs
    String.mk (ds.take 1 ++ (if frac = [] then [] else '.' :: frac) ++ ['e']
      ++ [if x < 0 then '-' else '+'] ++ (if ex.length < 2 then '0' :: ex else ex))
  else if 0 ≤ x then
    let frac := stripZeros (ds.drop (x.toNat + 1))
    String.mk (ds.take (x.toNat + 1) ++ (if frac = [] then [] else '.' :: frac))
  else
    String.mk (['0', '.'] ++ List.replicate ((-x).toNat - 1) '0' ++ stripZeros ds)

/-- Text that `std::ostream << double` writes in the default format (`%g`, precision 6). -/
def toText : double → String
  | nan neg => if neg then "-nan" else "nan"
  | inf neg => if neg then "-inf" else "inf"
  | fin neg k => (if neg then "-" else "") ++ (if k = 0 then "0" else fmtG k)

end double

/-! ## Lesson 1: classes -/

/-- The class `vec`: three public `double` fields. -/
structure vec where
  x : double
  y : double
  z : double
  deriving DecidableEq

/-- The constructor
`vec(const double& x = 0, const double& y = 0, const double& z = 1) : x{x}, y{y}, z{z} {}`. -/
def vec.ctor (x : double := 0) (y : double := 0) (z : double := 1) : vec :=
  { x := x, y := y, z := z }

/-- The alias `using velocity = vec;`. -/
abbrev velocity := vec

/-- The alias `using position = vec;`. -/
abbrev position := vec

namespace KludgeUtils

/-- The function `static long add(const long& a, const long& b) { return (a + b); }`. -/
def add (a b : long) : long := wrapLong (a + b)

/-- The function `static void helper_function(position& pos) { pos.z = 100; }`: the
referenced record after the call. -/
def helper_function (pos : position) : position :=
  { pos with z := 100 }

/-- The objects that the body of `complex_function` can reach: the caller's two records,
passed by reference, and the local `newpos`. -/
structure Frame where
  vel : velocity
  pos : position
  newpos : position

/-- The body of `complex_function`, statement by statement: the returned value and the
objects as the call leaves them. -/
def complex_function_body (vel : velocity) (pos : position) : double × Frame :=
  -- position newpos;
  let f : Frame := { vel := vel, pos := pos, newpos := vec.ctor }
  -- newpos.x = pos.x * vel.x;
  let f : Frame := { f with newpos := { f.newpos with x := f.pos.x * f.vel.x } }
  -- newpos.y = pos.y * vel.y;
  let f : Frame := { f with newpos := { f.newpos with y := f.pos.y * f.vel.y } }
  -- helper_function(newpos);
  let f : Frame := { f with newpos := helper_function f.newpos }
  -- return (newpos.x + newpos.y + newpos.z);
  (f.newpos.x + f.newpos.y + f.newpos.z, f)

/-- The function `static double complex_function(const velocity& vel, const position& pos)`. -/
def complex_function (vel : velocity) (pos : position) : double :=
  (complex_function_body vel pos).1

end KludgeUtils

namespace FudgeUtils

/-- The function `static long add(const long& a, const long& b) { return (a + b + 1); }`. -/
def add (a b : long) : long := wrapLong (wrapLong (a + b) + 1)

end FudgeUtils

/-! ## Lesson 2: references and shared pointers -/

/-- The names of type `long` declared at namespace scope. -/
inductive Name where
  | num
  | refnum
  deriving DecidableEq

/-- The `long` objects with static storage: only `long num = 1234;` creates one. -/
inductive Loc where
  | num
  deriving DecidableEq

/-- The object a name denotes: `long& refnum = num;` binds `refnum` to the object of `num`. -/
def bind : Name → Loc
  | Name.num => Loc.num
  | Name.refnum => Loc.num

/-- A `std::shared_ptr<T>` made by `std::make_shared`: a handle that is never null, with the
object it owns. -/
structure shared_ptr (T : Type) where
  get : T
  deriving DecidableEq

/-- The function `std::make_shared<T>(value)`. -/
def make_shared {T : Type} (value : T) : shared_ptr T := { get := value }

/-- The alias `using safe_vec = std::shared_ptr<vec>;`. -/
abbrev safe_vec := shared_ptr vec

/-- The objects with static storage duration. -/
structure Globals where
  num : long
  safe : shared_ptr position
  quick_safe : shared_ptr position
  posvec : List safe_vec

/-- Their values when `main` starts. -/
def Globals.initial : Globals :=
  { num := 1234
    safe := make_shared (vec.ctor 100 200 300)
    quick_safe := make_shared (vec.ctor 400 500 600)
    posvec := [make_shared (vec.ctor 1 2 3), make_shared (vec.ctor 4 5 6),
      make_shared (vec.ctor 7 8 9)] }

/-- Value of the object at a location. -/
def Globals.load (g : Globals) : Loc → long
  | Loc.num => g.num

/-- Assignment to the object at a location. -/
def Globals.store (g : Globals) : Loc → long → Globals
  | Loc.num, v => { g with num := v }

/-- Reading a name: the value of the object it denotes. -/
def Globals.read (g : Globals) (n : Name) : long := g.load (bind n)

/-- The statement `n += k;` on a name of type `long`. -/
def Globals.addAssign (g : Globals) (n : Name) (k : long) : Globals :=
  g.store (bind n) (wrapLong (g.load (bind n) + k))

/-! ## The program -/

/-- The streams of a run: the lines written to `std::cout`, to `std::cerr`, and to
`localfile.txt` (`none` as long as the file has not been opened). -/
structure Streams where
  cout : List String
  cerr : List String
  file : Option (List String)

/-- One line to `std::cout`. -/
def Streams.coutLine (s : Streams) (line : String) : Streams :=
  { s with cout := s.cout ++ [line] }

/-- One line to `std::cerr`. -/
def Streams.cerrLine (s : Streams) (line : String) : Streams :=
  { s with cerr := s.cerr ++ [line] }

/-- One line to the opened output file. -/
def Streams.fileLine (s : Streams) (line : String) : Streams :=
  { s with file := s.file.map (fun ls => ls ++ [line]) }

/-- What a run of `main` leaves: the exit code, the streams and the globals. -/
structure Outcome where
  exit : Int
  io : Streams
  globals : Globals

/-- The function `int main(int argc, char** argv)`; the arguments are not used. `openOk`
tells whether `std::ofstream output("localfile.txt")` opens the file. -/
def main (g : Globals) (openOk : Bool) : Outcome :=
  let io : Streams := { cout := [], cerr := [], file := none }
  let io := io.coutLine "*** Lesson 1: Classes ***"
  let lesson1 : vec := vec.ctor 10 20 30
  let io := io.coutLine ("lesson1.x = " ++ lesson1.x.toText ++ " lesson1.y = "
    ++ lesson1.y.toText ++ " lesson1.z = " ++ lesson1.z.toText)
  let lesson1_1 : vec := vec.ctor 100
  let io := io.coutLine ("lesson1_1.x = " ++ lesson1_1.x.toText ++ " lesson1_1.y = "
    ++ lesson1_1.y.toText ++ " lesson1_1.z = " ++ lesson1_1.z.toText)
  let lesson1_2 : position := vec.ctor
  let io := io.coutLine ("lesson1_2.x = " ++ lesson1_2.x.toText ++ " lesson1_2.y = "
    ++ lesson1_2.y.toText ++ " lesson1_2.z = " ++ lesson1_2.z.toText)
  let io := io.coutLine ("lesson1_3 : calling KludgeUtils::add(1,2) = "
    ++ (KludgeUtils.add 1 2).toText ++ " calling FudgeUtils::add(1,2) = "
    ++ (FudgeUtils.add 1 2).toText)
  let io := io.coutLine
    ("lesson1_3 : calling KludgeUtils::complex_function(velocity\x7b1,2,3\x7d, position\x7b10,10,10\x7d) = "
    ++ (KludgeUtils.complex_function (vec.ctor 1 2 3) (vec.ctor 10 10 10)).toText)
  let io := io.coutLine "*** Lesson 2: Pointers are dead ***"
  let io := io.coutLine ("lesson2 : num = " ++ (g.read Name.num).toText ++ " and refnum = "
    ++ (g.read Name.refnum).toText)
  -- refnum += 1;
  let g := g.addAssign Name.refnum 1
  let io := io.coutLine ("lesson2 : now after increment num = " ++ (g.read Name.num).toText
    ++ " and refnum = " ++ (g.read Name.refnum).toText)
  let io := io.coutLine
    ("lesson2_1 : this is how you access wrapped safe, like a pointer (*safe).x "
    ++ g.safe.get.x.toText)
  let io := io.coutLine
    ("lesson2_1 : can also access wrapped quick_safe, by function (quick_safe.get())->x "
    ++ g.quick_safe.get.x.toText)
  let io := io.coutLine "lesson2_2 : using a loop safely with a collection ..."
  -- for (safe_vec value : posvec) { std::cout << ... << std::endl; }
  let io := g.posvec.foldl (fun io value => io.coutLine
    ("looking at values x, y, z with " ++ value.get.x.toText ++ " " ++ value.get.y.toText
      ++ " " ++ value.get.z.toText)) io
  -- std::ofstream output("localfile.txt");
  if !openOk then
    -- std::cerr << "error: open file for output failed!" << std::endl; return 1;
    let io := io.cerrLine "error: open file for output failed!"
    { exit := 1, io := io, globals := g }
  else
    let io : Streams := { io with file := some [] }
    -- for (safe_vec value : posvec) { output << ... << std::endl; }
    let io := g.posvec.foldl (fun io value => io.fileLine
      ("looking at values x, y, z with " ++ value.get.x.toText ++ " " ++ value.get.y.toText
        ++ " " ++ value.get.z.toText)) io
    -- output.close(); return 0;
    { exit := 0, io := io, globals := g }

/-- The line the specification gives for an element of the sequence:
`looking at values x, y, z with <x> <y> <z>`. -/
def specLine (value : safe_vec) : String :=
  "looking at values x, y, z with " ++ value.get.x.toText ++ " " ++ value.get.y.toText
    ++ " " ++ value.get.z.toText

/-! ## The bounded recursions of the number formats always reach their result -/

theorem double.bitLength_spec (fuel n : Nat) (h : n ≤ fuel) :
    n < 2 ^ double.bitLength fuel n ∧ (n ≠ 0 → 2 ^ (double.bitLength fuel n - 1) ≤ n) := by
  induction fuel generalizing n with
  | zero =>
    have h0 : n = 0 := by omega
    subst h0
    simp [double.bitLength]
  | succ f ih =>
    by_cases hn : n = 0
    · subst hn
      simp [double.bitLength]
    · have h2 : n / 2 ≤ f := by omega
      obtain ⟨hlt, hge⟩ := ih (n / 2) h2
      simp only [double.bitLength, hn, if_false, Nat.add_sub_cancel]
      refine ⟨?_, fun _ => ?_⟩
      · rw [Nat.pow_succ]
        omega
      · by_cases hh : n / 2 = 0
        · have hb : double.bitLength f (n / 2) = 0 := by
            rw [hh]
            cases f <;> simp [double.bitLength]
          rw [hb]
          simp
          omega
        · have hlow := hge hh
          have hpos : double.bitLength f (n / 2) ≠ 0 := by
            intro h0
            rw [h0] at hlt
            simp at hlt
            exact hh hlt
          have e : double.bitLength f (n / 2) = (double.bitLength f (n / 2) - 1) + 1 := by
            omega
          rw [e, Nat.pow_succ]
          omega

theorem double.decLength_spec (fuel n : Nat) (h : n ≤ fuel) :
    n < 10 ^ double.decLength fuel n ∧ (n ≠ 0 → 10 ^ (double.decLength fuel n - 1) ≤ n) := by
  induction fuel generalizing n with
  | zero =>
    have h0 : n = 0 := by omega
    subst h0
    simp [double.decLength]
  | succ f ih =>
    by_cases hn : n = 0
    · subst hn
      simp [double.decLength]
    · have h2 : n / 10 ≤ f := by omega
      obtain ⟨hlt, hge⟩ := ih (n / 10) h2
      simp only [double.decLength, hn, if_false, Nat.add_sub_cancel]
      refine ⟨?_, fun _ => ?_⟩
      · rw [Nat.pow_succ]
        omega
      · by_cases hh : n / 10 = 0
        · have hb : double.decLength f (n / 10) = 0 := by
            rw [hh]
            cases f <;> simp [double.decLength]
          rw [hb]
          simp
          omega
        · have hlow := hge hh
          have hpos : double.decLength f (n / 10) ≠ 0 := by
            intro h0
            rw [h0] at hlt
            simp at hlt
            exact hh hlt
          have e : double.decLength f (n / 10) = (double.decLength f (n / 10) - 1) + 1 := by
            omega
          rw [e, Nat.pow_succ]
          omega

theorem double.negExp10_spec (fuel k j : Nat) (h : 2 ^ 1074 ≤ k * 10 ^ (j + fuel)) :
    2 ^ 1074 ≤ k * 10 ^ double.negExp10 fuel k j
      ∧ ∀ i, j ≤ i → i < double.negExp10 fuel k j → k * 10 ^ i < 2 ^ 1074 := by
  induction fuel generalizing j with
  | zero =>
    simp only [double.negExp10]
    exact ⟨h, fun i h1 h2 => by omega⟩
  | succ f ih =>
    simp only [double.negExp10]
    split
    · next hc => exact ⟨hc, fun i h1 h2 => by omega⟩
    · next hc =>
      have h' : 2 ^ 1074 ≤ k * 10 ^ (j + 1 + f) := by
        have e : j + 1 + f = j + (f + 1) := by omega
        rw [e]
        exact h
      obtain ⟨a, b⟩ := ih (j + 1) h'
      refine ⟨a, fun i h1 h2 => ?_⟩
      by_cases hij : i = j
      · subst hij
        omega
      · exact b i (by omega) h2

theorem double.negExp10_enough (k : Nat) (hk : 0 < k) :
    2 ^ 1074 ≤ k * 10 ^ double.negExp10 400 k 1
      ∧ ∀ i, 1 ≤ i → i < double.negExp10 400 k 1 → k * 10 ^ i < 2 ^ 1074 := by
  apply double.negExp10_spec
  have h1 : 2 ^ 1074 ≤ 1 * 10 ^ (1 + 400) := by decide!
  exact Nat.le_trans h1 (Nat.mul_le_mul_right _ hk)

/-! ## Facts about the arithmetic and the streams -/

theorem wrapLong_eq_self_iff (n : Int) :
    wrapLong n = n ↔ LONG_MIN ≤ n ∧ n ≤ LONG_MAX := by
  unfold wrapLong LONG_MIN LONG_MAX
  omega

theorem wrapLong_bounds (n : Int) : LONG_MIN ≤ wrapLong n ∧ wrapLong n ≤ LONG_MAX := by
  unfold wrapLong LONG_MIN LONG_MAX
  omega

theorem wrapLong_succ_ne (n : Int) : wrapLong (wrapLong n + 1) ≠ wrapLong n := by
  unfold wrapLong
  omega

theorem wrapLong_succ_eq_iff (n : Int) :
    wrapLong (wrapLong n + 1) = wrapLong n + 1 ↔ wrapLong n ≠ LONG_MAX := by
  unfold wrapLong LONG_MAX
  omega

theorem double.mul_comm_of_not_both_nan (a b : double)
    (h : ¬ (a.isNaN = true ∧ b.isNaN = true)) : a * b = b * a := by
  show double.mul a b = double.mul b a
  cases a <;> cases b <;>
    simp_all [double.mul, double.isNaN, Bool.xor_comm, Nat.mul_comm]

theorem double.mul_isNaN_of_both (a b : double) (ha : a.isNaN = true) (hb : b.isNaN = true) :
    (a * b).isNaN = true := by
  show (double.mul a b).isNaN = true
  cases a <;> cases b <;> simp_all [double.mul, double.isNaN]

theorem double.add_isNaN_left (a b : double) (ha : a.isNaN = true) :
    (a + b).isNaN = true := by
  show (double.add a b).isNaN = true
  cases a <;> cases b <;> simp_all [double.add, double.isNaN]

theorem double.add_isNaN_right (a b : double) (hb : b.isNaN = true) :
    (a + b).isNaN = true := by
  show (double.add a b).isNaN = true
  cases a <;> cases b <;> simp_all [double.add, double.isNaN]

theorem complex_function_unfold (vel : velocity) (pos : position) :
    KludgeUtils.complex_function vel pos = pos.x * vel.x + pos.y * vel.y + 100 := rfl

theorem foldl_coutLine (f : safe_vec → String) (l : List safe_vec) (io : Streams) :
    l.foldl (fun io value => io.coutLine (f value)) io
      = { io with cout := io.cout ++ l.map f } := by
  induction l generalizing io with
  | nil => simp
  | cons v vs ih =>
    rw [List.foldl_cons, ih]
    simp [Streams.coutLine]

theorem foldl_fileLine (f : safe_vec → String) (l : List safe_vec) (io : Streams) :
    l.foldl (fun io value => io.fileLine (f value)) io
      = { io with file := io.file.map (fun ls => ls ++ l.map f) } := by
  induction l generalizing io with
  | nil => cases io with | mk c e fl => cases fl <;> simp
  | cons v vs ih =>
    rw [List.foldl_cons, ih]
    cases io with | mk c e fl => cases fl <;> simp [Streams.fileLine]

theorem main_exit (g : Globals) (openOk : Bool) :
    (main g openOk).exit = if openOk then 0 else 1 := by
  cases openOk <;> rfl

theorem main_globals (g : Globals) (openOk : Bool) :
    (main g openOk).globals = g.addAssign Name.refnum 1 := by
  cases openOk <;> rfl

theorem main_cout (g : Globals) (openOk : Bool) :
    (main g openOk).io.cout.length = 12 + g.posvec.length
      ∧ (main g openOk).io.cout.drop 12 = g.posvec.map specLine := by
  have hp : (g.addAssign Name.refnum 1).posvec = g.posvec := rfl
  cases openOk <;>
  · simp only [main, foldl_coutLine, foldl_fileLine, hp]
    simp [Streams.coutLine, Streams.cerrLine]
    exact ⟨by omega, fun _ _ => rfl⟩

theorem main_cerr (g : Globals) (openOk : Bool) :
    (main g openOk).io.cerr
      = if openOk then [] else ["error: open file for output failed!"] := by
  cases openOk <;>
  · simp only [main, foldl_coutLine, foldl_fileLine]
    simp [Streams.coutLine, Streams.cerrLine]

theorem main_file (g : Globals) (openOk : Bool) :
    (main g openOk).io.file = if openOk then some (g.posvec.map specLine) else none := by
  have hp : (g.addAssign Name.refnum 1).posvec = g.posvec := rfl
  cases openOk
  · simp only [main, foldl_coutLine, foldl_fileLine, hp]
    simp [Streams.coutLine, Streams.cerrLine]
  · simp only [main, foldl_coutLine, foldl_fileLine, hp]
    simp [Streams.coutLine, Streams.cerrLine]
    exact fun _ _ => rfl

/-! ## Lesson 1: the utility classes -/

/-- C1: for every `vel` and `pos`, `complex_function(vel, pos)` returns
`pos.x*vel.x + pos.y*vel.y + 100`: the sum of the three fields of the local record, whose
`x` and `y` are the products of the inputs' `x` and `y` and whose `z` the helper has set to
`100` (the number one hundred), so that the default `z = 1` is not part of the result. -/
theorem complex_function_eq (vel : velocity) (pos : position) :
    (KludgeUtils.complex_function_body vel pos).2.newpos
        = { x := pos.x * vel.x, y := pos.y * vel.y, z := 100 }
      ∧ KludgeUtils.complex_function vel pos
        = (KludgeUtils.complex_function_body vel pos).2.newpos.x
          + (KludgeUtils.complex_function_body vel pos).2.newpos.y
          + (KludgeUtils.complex_function_body vel pos).2.newpos.z
      ∧ KludgeUtils.complex_function vel pos = pos.x * vel.x + pos.y * vel.y + 100
      ∧ (100 : double) = double.fin false (100 * 2 ^ 1074) :=
  ⟨rfl, rfl, rfl, by decide!⟩

/-- C2: `complex_function(velocity{1,2,3}, position{10,10,10})` is `130`: the local record
ends as `{10, 20, 100}`, and `main` prints the result as `130`. -/
theorem complex_function_example :
    (KludgeUtils.complex_function_body (vec.ctor 1 2 3) (vec.ctor 10 10 10)).2.newpos
        = vec.ctor 10 20 100
      ∧ KludgeUtils.complex_function (vec.ctor 1 2 3) (vec.ctor 10 10 10) = 130
      ∧ (130 : double) = double.fin false (130 * 2 ^ 1074)
      ∧ (main Globals.initial true).io.cout[5]? = some
        "lesson1_3 : calling KludgeUtils::complex_function(velocity\x7b1,2,3\x7d, position\x7b10,10,10\x7d) = 130" := by
  decide!

/-- C3, as stated, fails where the sum leaves the range of `long`:
`KludgeUtils::add(LONG_MAX, 1)` is `LONG_MIN`, not `LONG_MAX + 1`. -/
theorem kludge_add_overflow :
    KludgeUtils.add LONG_MAX 1 = LONG_MIN ∧ KludgeUtils.add LONG_MAX 1 ≠ LONG_MAX + 1 := by
  decide

/-- C3, amended: for all `long` values `a` and `b`, `KludgeUtils::add(a, b)` equals `a + b`
exactly when `a + b` lies in the range of `long`; the result is a `long` in every case. -/
theorem kludge_add_eq_iff (a b : long) :
    (KludgeUtils.add a b = a + b ↔ LONG_MIN ≤ a + b ∧ a + b ≤ LONG_MAX)
      ∧ LONG_MIN ≤ KludgeUtils.add a b ∧ KludgeUtils.add a b ≤ LONG_MAX :=
  ⟨wrapLong_eq_self_iff (a + b), wrapLong_bounds (a + b)⟩

/-- C4, as stated, fails where the increment leaves the range of `long`:
`KludgeUtils::add(LONG_MAX, 0)` is `LONG_MAX` and `FudgeUtils::add(LONG_MAX, 0)` is
`LONG_MIN`, not `LONG_MAX + 1`. -/
theorem fudge_add_overflow :
    KludgeUtils.add LONG_MAX 0 = LONG_MAX ∧ FudgeUtils.add LONG_MAX 0 = LONG_MIN
      ∧ FudgeUtils.add LONG_MAX 0 ≠ KludgeUtils.add LONG_MAX 0 + 1 := by
  decide

/-- C4, amended: for all `long` values `a` and `b`, `FudgeUtils::add(a, b)` equals
`KludgeUtils::add(a, b) + 1` exactly when `KludgeUtils::add(a, b)` is not `LONG_MAX`; and
on all arguments the two functions return different values. -/
theorem fudge_add_eq_iff (a b : long) :
    (FudgeUtils.add a b = KludgeUtils.add a b + 1 ↔ KludgeUtils.add a b ≠ LONG_MAX)
      ∧ FudgeUtils.add a b ≠ KludgeUtils.add a b :=
  ⟨wrapLong_succ_eq_iff (a + b), wrapLong_succ_ne (a + b)⟩

/-- C5: a `vec` built from `(a, b, c)` has the fields `x = a`, `y = b`, `z = c`; arguments
left out take the defaults in order, so `vec(a, b)` is `(a, b, 1)`, `vec(a)` is `(a, 0, 1)`
and `vec()` is `(0, 0, 1)`, where `0` and `1` are the numbers zero and one; `main` prints
`lesson1`, `lesson1_1` and `lesson1_2` accordingly. -/
theorem vec_ctor_fields (a b c : double) :
    ((vec.ctor a b c).x = a ∧ (vec.ctor a b c).y = b ∧ (vec.ctor a b c).z = c)
      ∧ vec.ctor a b = { x := a, y := b, z := 1 }
      ∧ vec.ctor a = { x := a, y := 0, z := 1 }
      ∧ vec.ctor = { x := 0, y := 0, z := 1 }
      ∧ (0 : double) = double.fin false 0
      ∧ (1 : double) = double.fin false (2 ^ 1074)
      ∧ (main Globals.initial true).io.cout.take 4
        = ["*** Lesson 1: Classes ***", "lesson1.x = 10 lesson1.y = 20 lesson1.z = 30",
           "lesson1_1.x = 100 lesson1_1.y = 0 lesson1_1.z = 1",
           "lesson1_2.x = 0 lesson1_2.y = 0 lesson1_2.z = 1"] :=
  ⟨⟨rfl, rfl, rfl⟩, rfl, rfl, rfl, by decide!, by decide!, by decide!⟩

/-- C9: `helper_function` sets `z` to `100` whatever it was and keeps `x` and `y`; and
`complex_function` leaves the records `vel` and `pos` as they were: the record that the
helper changes is the local one. -/
theorem helper_function_frame (p vel pos : position) :
    ((KludgeUtils.helper_function p).z = 100
        ∧ (KludgeUtils.helper_function p).x = p.x ∧ (KludgeUtils.helper_function p).y = p.y)
      ∧ (KludgeUtils.complex_function_body vel pos).2.vel = vel
      ∧ (KludgeUtils.complex_function_body vel pos).2.pos = pos
      ∧ (KludgeUtils.complex_function_body vel pos).2.newpos.z = 100 :=
  ⟨⟨rfl, rfl, rfl⟩, rfl, rfl, rfl⟩

/-- C8, as stated, fails where the sum leaves the range of `long`: with `num` at
`LONG_MAX`, `refnum += 1` leaves `LONG_MIN` in `num`, not `LONG_MAX + 1`. -/
theorem alias_increment_overflow :
    (({ Globals.initial with num := LONG_MAX }).addAssign Name.refnum 1).read Name.num
        = LONG_MIN
      ∧ (({ Globals.initial with num := LONG_MAX }).addAssign Name.refnum 1).read Name.num
        ≠ ({ Globals.initial with num := LONG_MAX }).read Name.num + 1 := by
  decide

/-- C8, amended: `num` and `refnum` read the same value in every state; `refnum += k` and
`num += k` both store the `long` sum in the one object, and the value read through the
other name changes by exactly `k` exactly when that sum lies in the range of `long`; in the
program's run both names read `1234` before `refnum += 1` and `1235` after it. -/
theorem alias_same_object (g : Globals) (k : long) (openOk : Bool) :
    g.read Name.num = g.read Name.refnum
      ∧ (g.addAssign Name.refnum k).read Name.num = wrapLong (g.read Name.num + k)
      ∧ (g.addAssign Name.num k).read Name.refnum = wrapLong (g.read Name.refnum + k)
      ∧ ((g.addAssign Name.refnum k).read Name.num = g.read Name.num + k
          ↔ LONG_MIN ≤ g.read Name.num + k ∧ g.read Name.num + k ≤ LONG_MAX)
      ∧ ((g.addAssign Name.num k).read Name.refnum = g.read Name.refnum + k
          ↔ LONG_MIN ≤ g.read Name.refnum + k ∧ g.read Name.refnum + k ≤ LONG_MAX)
      ∧ (Globals.initial.read Name.num = 1234 ∧ Globals.initial.read Name.refnum = 1234)
      ∧ ((main Globals.initial openOk).globals.read Name.num = 1235
          ∧ (main Globals.initial openOk).globals.read Name.refnum = 1235)
      ∧ (main Globals.initial openOk).io.cout[7]?
          = some "lesson2 : num = 1234 and refnum = 1234"
      ∧ (main Globals.initial openOk).io.cout[8]?
          = some "lesson2 : now after increment num = 1235 and refnum = 1235" := by
  refine ⟨rfl, rfl, rfl, wrapLong_eq_self_iff (g.num + k), wrapLong_eq_self_iff (g.num + k),
    ⟨rfl, rfl⟩, ?_, ?_, ?_⟩ <;> cases openOk <;> decide!

/-- C6: for every sequence `posvec`, when the file opens, the first loop adds to the
console (after the twelve lines written before it) and the second writes to the file the
same list of lines: one line for each element, in the order of the sequence, the line of an
element being the prefix `looking at values x, y, z with ` and then its `x`, `y` and `z`
with single spaces between. For the program's sequence the file holds the lines ending in
`1 2 3`, `4 5 6`, `7 8 9`. -/
theorem loops_emit_same_lines (g : Globals) :
    (main g true).io.cout.drop 12 = g.posvec.map specLine
      ∧ (main g true).io.file = some (g.posvec.map specLine)
      ∧ (main g true).io.cout.length = 12 + g.posvec.length
      ∧ (g.posvec.map specLine).length = g.posvec.length
      ∧ (∀ i : Nat, (g.posvec.map specLine)[i]? = (g.posvec[i]?).map (fun value =>
          "looking at values x, y, z with " ++ value.get.x.toText ++ " "
            ++ value.get.y.toText ++ " " ++ value.get.z.toText))
      ∧ (main Globals.initial true).io.file
          = some ["looking at values x, y, z with 1 2 3",
                  "looking at values x, y, z with 4 5 6",
                  "looking at values x, y, z with 7 8 9"] := by
  refine ⟨(main_cout g true).2, main_file g true, (main_cout g true).1, List.length_map _ _,
    ?_, by decide!⟩
  intro i
  rw [List.getElem?_map]
  rfl

/-- C7: `main` returns `1` exactly when the file could not be opened and `0` exactly when
it could; when the open fails one line goes to `std::cerr` and nothing is written to the
file, and when it succeeds nothing goes to `std::cerr`. -/
theorem main_exit_code (g : Globals) (openOk : Bool) :
    ((main g openOk).exit = 1 ↔ openOk = false)
      ∧ ((main g openOk).exit = 0 ↔ openOk = true)
      ∧ ((main g false).io.cerr = ["error: open file for output failed!"]
          ∧ (main g false).io.cerr.length = 1)
      ∧ (main g false).io.file = none
      ∧ (main g true).io.cerr = [] := by
  refine ⟨?_, ?_, ⟨main_cerr g false, ?_⟩, main_file g false, main_cerr g true⟩
  · rw [main_exit]
    cases openOk <;> simp
  · rw [main_exit]
    cases openOk <;> simp
  · rw [main_cerr]
    rfl

end ChrisTips
